import Mathlib

/-!
Shallow embedding of the "stremio-imdb-top-picks" request handler
(extras-aware revision, `src/unnamed/part_000`; the fixed-catalog revision
`src/api/index.js` shares the codec and the upstream-error classification
verbatim).

JavaScript strings are modelled as Lean `String`; JavaScript `undefined`
for an absent field is modelled with `Option`; a thrown `TypeError`
(reading a property of `undefined`) is modelled with `Except JsError`.
Byte strings (the contents of a Node `Buffer`) are modelled as `List Nat`
with every element `< 256`.
-/

/-- A JavaScript runtime exception (reading a property of `undefined`). -/
inductive JsError where
  | typeError
deriving DecidableEq, Repr

/-! ### Generic string helpers (kernel-friendly replacements for the
JavaScript string primitives used by the source) -/

/-- `p` is a prefix of `s` (JavaScript `String.prototype.startsWith`). -/
def startsWithL : List Char → List Char → Bool
  | [], _ => true
  | _ :: _, [] => false
  | p :: ps, s :: ss => p == s && startsWithL ps ss

/-- JavaScript `s.startsWith(pre)` on Lean strings. -/
def strStarts (pre s : String) : Bool := startsWithL pre.data s.data

/-- Auxiliary state-passing loop for `splitChar`. -/
def splitCharAux (c : Char) : List Char → List Char → List String
  | [], acc => [String.mk acc.reverse]
  | x :: xs, acc =>
    if x = c then String.mk acc.reverse :: splitCharAux c xs []
    else splitCharAux c xs (x :: acc)

/-- JavaScript `s.split(c)` for a one-character separator. -/
def splitChar (c : Char) (s : String) : List String := splitCharAux c s.data []

/-- JavaScript `Array.prototype.join(sep)` for arrays of strings. -/
def joinSep (sep : String) : List String → String
  | [] => ""
  | [x] => x
  | x :: y :: xs => x ++ sep ++ joinSep sep (y :: xs)

/-- JavaScript `s.includes(c)` for a single character. -/
def containsChar (c : Char) (s : String) : Bool := s.data.contains c

/-- `suf` is a suffix of `s` (JavaScript `/suf$/` anchoring). -/
def endsWithL (suf s : List Char) : Bool := startsWithL suf.reverse s.reverse

/-- JavaScript `s.replace(/\.json$/, "")`: strip one trailing ".json". -/
def stripJsonSuffix (s : String) : String :=
  if endsWithL ".json".data s.data then String.mk (s.data.take (s.data.length - 5)) else s

/-- ASCII lower-casing of a string, as JavaScript `toLowerCase` acts on the
ASCII genre names the handler compares. -/
def jsToLower (s : String) : String := String.mk (s.data.map Char.toLower)

/-- `pat` occurs as a contiguous substring of `s`. -/
def hasSubL (pat : List Char) : List Char → Bool
  | [] => startsWithL pat []
  | c :: rest => startsWithL pat (c :: rest) || hasSubL pat rest

/-- Case-insensitive substring test: JavaScript `s.match(/pat/i)` for a
literal all-lowercase pattern. -/
def hasSubCI (pat s : String) : Bool := hasSubL (jsToLower pat).data (jsToLower s).data

/-- JavaScript string-to-string comparison `a <= b` (lexicographic by code
unit) on char lists. -/
def lexLeL : List Char → List Char → Bool
  | [], _ => true
  | _ :: _, [] => false
  | a :: as, b :: bs => if a < b then true else if a = b then lexLeL as bs else false

/-- JavaScript `a <= b` on strings. -/
def lexLe (a b : String) : Bool := lexLeL a.data b.data

/-! ### Base64url credential codec (`b64url` in both source revisions)

`encode` = `Buffer.from(s).toString("base64")` with `+` replaced by `-`,
`/` by `_`, and trailing `=` stripped; `decode` reverses the substitution,
re-pads to a multiple of four with a `while` loop, and base64-decodes with
the forgiving Node decoder (characters outside the alphabet, including the
padding itself, are skipped).  The cookie is modelled by its buffer
contents, a byte list. -/

/-- The standard base64 alphabet used by `Buffer.toString("base64")`. -/
def B64_CHARS : List Char :=
  "ABCDEFGHIJKLMNOPQRSTUVWXYZabcdefghijklmnopqrstuvwxyz0123456789+/".data

/-- The alphabet character for a 6-bit value. -/
def b64char (n : Nat) : Char := B64_CHARS.getD n 'A'

/-- The 6-bit value of an alphabet character (`none` for padding and any
other non-alphabet character, which the Node decoder skips). -/
def b64val (c : Char) : Option Nat := B64_CHARS.findIdx? (fun x => x == c)

/-- 6-bit groups of a byte sequence, three bytes to four values, with the
partial final group of standard base64. -/
def b64vals : List Nat → List Nat
  | a :: b :: c :: rest =>
    a / 4 :: ((a % 4) * 16 + b / 16) :: ((b % 16) * 4 + c / 64) :: c % 64 :: b64vals rest
  | [a, b] => [a / 4, (a % 4) * 16 + b / 16, (b % 16) * 4]
  | [a] => [a / 4, (a % 4) * 16]
  | [] => []

/-- Number of `=` padding characters standard base64 appends. -/
def padEqCount (n : Nat) : Nat :=
  if n % 3 = 1 then 2 else if n % 3 = 2 then 1 else 0

/-- Reassemble bytes from 6-bit values, four values to three bytes; a
trailing group of three or two values yields two or one bytes, a lone
trailing value is dropped (forgiving Node base64 decoding). -/
def bytesOfVals : List Nat → List Nat
  | a :: b :: c :: d :: rest =>
    (a * 4 + b / 16) :: ((b % 16) * 16 + c / 4) :: ((c % 4) * 64 + d) :: bytesOfVals rest
  | [a, b, c] => [a * 4 + b / 16, (b % 16) * 16 + c / 4]
  | [a, b] => [a * 4 + b / 16]
  | _ => []

/-- The `+` to `-` and `/` to `_` substitution of `b64url.encode`. -/
def subEnc1 (c : Char) : Char := if c = '+' then '-' else if c = '/' then '_' else c

/-- The `-` to `+` and `_` to `/` substitution of `b64url.decode`. -/
def subDec1 (c : Char) : Char := if c = '-' then '+' else if c = '_' then '/' else c

/-- `replace(/=+$/, "")`: strip every trailing `=`. -/
def stripEqEnd (l : List Char) : List Char :=
  (l.reverse.dropWhile (fun c => c == '=')).reverse

/-- One bounded unrolling of the `while (b.length % 4) b += "="` loop:
each pass re-tests the loop condition and appends one `=`. -/
def padLoopFuel : Nat → List Char → List Char
  | 0, b => b
  | n + 1, b => if b.length % 4 = 0 then b else padLoopFuel n (b ++ ['='])

/-- The `while (b.length % 4) b += "="` re-padding loop of `b64url.decode`.
The length modulo four strictly cycles toward zero, so the loop runs at
most three times; four available iterations are therefore exact
(`padLoopFuel_eq` below proves the closed form). -/
def padLoop (b : List Char) : List Char := padLoopFuel 4 b

namespace b64url

/-- `b64url.encode`: base64 of the byte string, `+` and `/` substituted,
trailing padding stripped. -/
def encode (bs : List Nat) : List Char :=
  stripEqEnd (((b64vals bs).map b64char ++ List.replicate (padEqCount bs.length) '=').map subEnc1)

/-- `b64url.decode`: substitution reversed, padding restored by the
`while` loop, then the forgiving base64 decode. -/
def decode (s : List Char) : List Nat :=
  bytesOfVals ((padLoop (s.map subDec1)).filterMap b64val)

end b64url

/-! ### Upstream GraphQL payload model

Record shapes follow the property paths the source dereferences; every
field that the source reads through optional chaining (or that can be
absent in a JSON payload) is an `Option`. -/

structure GenreInner where
  text : Option String
deriving DecidableEq, Repr

structure GenreWrap where
  genre : Option GenreInner
deriving DecidableEq, Repr

structure TitleGenres where
  genres : Option (List GenreWrap)
deriving DecidableEq, Repr

structure TitleTypeRef where
  id : Option String
deriving DecidableEq, Repr

structure TitleTextRef where
  text : Option String
deriving DecidableEq, Repr

structure ImageRef where
  url : Option String
deriving DecidableEq, Repr

structure ReleaseYearRef where
  year : Option Int
deriving DecidableEq, Repr

structure RatingsSummary where
  aggregateRating : Option Rat
deriving DecidableEq, Repr

structure Title where
  id : Option String
  titleType : Option TitleTypeRef
  titleText : Option TitleTextRef
  originalTitleText : Option TitleTextRef
  primaryImage : Option ImageRef
  releaseYear : Option ReleaseYearRef
  titleGenres : Option TitleGenres
  ratingsSummary : Option RatingsSummary
deriving DecidableEq, Repr

structure EdgeNode where
  title : Option Title
deriving DecidableEq, Repr

structure Edge where
  node : Option EdgeNode
deriving DecidableEq, Repr

structure TitleRecs where
  edges : Option (List Edge)
deriving DecidableEq, Repr

structure GqlData where
  titleRecommendations : Option TitleRecs
deriving DecidableEq, Repr

structure UpstreamErr where
  message : Option String
deriving DecidableEq, Repr

structure GqlPayload where
  data : Option GqlData
  errors : Option (List UpstreamErr)
deriving DecidableEq, Repr

/-- `response?.data?.data?.titleRecommendations?.edges || []` (the payload
here is already `response.data`). -/
def edgesOfPayload (p : GqlPayload) : List Edge :=
  ((p.data.bind (fun d => d.titleRecommendations)).bind (fun tr => tr.edges)).getD []

/-- An axios transport failure: the upstream HTTP status (if any) and the
underlying error message. -/
structure TransportErr where
  status : Option Nat
  message : Option String
deriving DecidableEq, Repr

/-- `"Request to IMDb GraphQL failed: " + (e.response?.status || "") + " "
+ (e.message || "")`. -/
def transportErrMsg (e : TransportErr) : String :=
  "Request to IMDb GraphQL failed: " ++
    (match e.status with | some n => toString n | none => "") ++ " " ++ (e.message.getD "")

/-- `response.data.errors.map(e => e.message).join(", ")`; `Array.join`
renders an `undefined` element as the empty string. -/
def joinedErrorMessages (errs : List UpstreamErr) : String :=
  joinSep ", " (errs.map (fun e => e.message.getD ""))

/-- `fetchImdbData` after the outbound call, applied to the transport
outcome: a transport failure is wrapped; on a transport success the
payload is inspected, and when the edge list is absent or empty while an
`errors` field is present the call fails with either the fixed
login-required message (if the joined messages match `/auth/i` or
`/login/i`) or the generic upstream-error message. -/
def fetchImdbData (transport : Except TransportErr GqlPayload) : Except String GqlPayload :=
  match transport with
  | .error e => .error (transportErrMsg e)
  | .ok response =>
    if (edgesOfPayload response).isEmpty && response.errors.isSome then
      let msg := joinedErrorMessages (response.errors.getD [])
      if hasSubCI "auth" msg || hasSubCI "login" msg then
        .error "Login required or cookie expired."
      else .error ("IMDb GraphQL error: " ++ msg)
    else .ok response

/-! ### Title-to-meta mapper (`buildMeta`) -/

/-- A Stremio catalog item as built by `buildMeta`. -/
structure MetaItem where
  id : String
  type : String
  name : String
  poster : String
  year : Option Int
  genres : List String
  posterShape : String
  imdbRating : Option Rat
deriving DecidableEq, Repr

/-- JavaScript `a || b` on a possibly-absent string (absent and empty are
falsy). -/
def jsOrStr (a : Option String) (b : String) : String :=
  match a with
  | some s => if s ≠ "" then s else b
  | none => b

/-- `(t.titleGenres?.genres || []).map(g => g.genre.text)`: the access
`g.genre` is not optional-chained, so an entry without a `genre` object
raises a TypeError. -/
def mapGenreTexts : List GenreWrap → Except JsError (List (Option String))
  | [] => .ok []
  | g :: rest =>
    match g.genre with
    | none => .error .typeError
    | some gg =>
      match mapGenreTexts rest with
      | .error e => .error e
      | .ok ts => .ok (gg.text :: ts)

/-- `.filter(Boolean)` on an array of possibly-absent strings: keeps the
truthy elements (present and non-empty), in order. -/
def truthyStrings (l : List (Option String)) : List String :=
  (l.filterMap (fun x => x)).filter (fun s => s ≠ "")

/-- `buildMeta(edge)`: `null` (modelled `none`) for an edge without a
title node or without a truthy title id, otherwise the catalog item. -/
def buildMeta (edge : Edge) : Except JsError (Option MetaItem) :=
  match edge.node.bind (fun n => n.title) with
  | none => .ok none
  | some t =>
    if t.id.getD "" = "" then .ok none
    else
      match mapGenreTexts ((t.titleGenres.bind (fun tg => tg.genres)).getD []) with
      | .error e => .error e
      | .ok texts =>
        .ok (some {
          id := t.id.getD "",
          type :=
            if t.titleType.bind (fun tt => tt.id) = some "tvSeries" ∨
                t.titleType.bind (fun tt => tt.id) = some "tvMiniSeries" then "series"
            else "movie",
          name := jsOrStr (t.titleText.bind (fun x => x.text))
            (jsOrStr (t.originalTitleText.bind (fun x => x.text)) "IMDb title"),
          poster := jsOrStr (t.primaryImage.bind (fun x => x.url)) "",
          year := t.releaseYear.bind (fun x => x.year),
          genres := truthyStrings texts,
          posterShape := "poster",
          imdbRating := t.ratingsSummary.bind (fun x => x.aggregateRating) })

/-- `edges.map(buildMeta)`: JavaScript `map` evaluates left to right and
propagates the first exception. -/
def mapBuildMeta : List Edge → Except JsError (List (Option MetaItem))
  | [] => .ok []
  | e :: rest =>
    match buildMeta e with
    | .error err => .error err
    | .ok m =>
      match mapBuildMeta rest with
      | .error err => .error err
      | .ok ms => .ok (m :: ms)

/-! ### Genre extraction for the manifest (`extractGenresFromData`) -/

/-- The sequence of genre display strings the `extractGenresFromData`
loops visit and insert (guarded by the truthiness of
`g?.genre?.text`), before de-duplication. -/
def collectGenreTexts (p : GqlPayload) : List String :=
  (edgesOfPayload p).flatMap (fun e =>
    ((((e.node.bind (fun n => n.title)).bind (fun t => t.titleGenres)).bind
        (fun tg => tg.genres)).getD []).filterMap
      (fun g =>
        match g.genre.bind (fun gg => gg.text) with
        | some t => if t ≠ "" then some t else none
        | none => none))

/-- One `Set.prototype.add`: append unless already present. -/
def setAdd (l : List String) (s : String) : List String :=
  if s ∈ l then l else l ++ [s]

/-- `Array.from(new Set(...))`: first-occurrence de-duplication. -/
def distinctFirst (l : List String) : List String := l.foldl setAdd []

/-- Insertion step of the sort. -/
def insertLex (s : String) : List String → List String
  | [] => [s]
  | x :: xs => if lexLe s x then s :: x :: xs else x :: insertLex s xs

/-- `.sort()` on an array of strings: lexicographic by code unit.  (On a
duplicate-free input the sorted result is unique, so insertion sort agrees
with whatever algorithm the runtime uses.) -/
def sortLex : List String → List String
  | [] => []
  | x :: xs => insertLex x (sortLex xs)

/-- `extractGenresFromData`: collect, de-duplicate, sort. -/
def extractGenresFromData (p : GqlPayload) : List String :=
  sortLex (distinctFirst (collectGenreTexts p))

/-! ### Extras parsing (`parseExtrasFromPath`) -/

/-- JavaScript object property assignment on a string-keyed record. -/
def jsObjSet : List (String × String) → String → String → List (String × String)
  | [], k, v => [(k, v)]
  | (k0, v0) :: rest, k, v =>
    if k0 = k then (k0, v) :: rest else (k0, v0) :: jsObjSet rest k v

/-- JavaScript property read: `none` models `undefined`. -/
def jsObjGet (o : List (String × String)) (k : String) : Option String :=
  (o.find? (fun kv => kv.1 == k)).map (fun kv => kv.2)

/-- `parseExtrasFromPath(path)`: fifth `/`-segment, `.json` stripped, and
if it is non-empty and contains `=`, split on `,` into `k=v` pairs,
keeping pairs whose key and value are both truthy. -/
def extrasStep (acc : List (String × String)) (pair : String) : List (String × String) :=
  let kv := splitChar '=' pair
  match kv[1]? with
  | some v =>
    if (kv[0]?).getD "" ≠ "" ∧ v ≠ "" then jsObjSet acc ((kv[0]?).getD "") v else acc
  | none => acc

def parseExtrasFromPath (path : String) : List (String × String) :=
  let parts := splitChar '/' path
  let extrasStr := stripJsonSuffix ((parts[4]?).getD "")
  if extrasStr ≠ "" ∧ containsChar '=' extrasStr then
    (splitChar ',' extrasStr).foldl extrasStep []
  else []

/-! ### Manifest template and request handler -/

structure ExtraDesc where
  name : String
  isRequired : Bool
  options : List String
deriving DecidableEq, Repr

structure CatalogDesc where
  id : String
  type : String
  name : String
  extra : List ExtraDesc
deriving DecidableEq, Repr

structure Manifest where
  id : String
  version : String
  name : String
  description : String
  types : List String
  catalogs : List CatalogDesc
  resources : List String
  configurable : Bool
deriving DecidableEq, Repr

def BASE_MANIFEST : Manifest := {
  id := "community.imdb-top-picks",
  version := "2.4.0",
  name := "IMDb Top Picks",
  description := "Personalized IMDb \"Top Picks\" for your account.",
  types := ["movie", "series"],
  catalogs := [
    { id := "imdb-top-picks", type := "movie", name := "IMDB Top Picks – Movies",
      extra := [{ name := "genre", isRequired := false, options := [] }] },
    { id := "imdb-top-picks", type := "series", name := "IMDB Top Picks – Series",
      extra := [{ name := "genre", isRequired := false, options := [] }] }],
  resources := ["catalog", "meta"],
  configurable := false }

/-- The per-catalog mutation `cat.extra[0].options = genres` (every
catalog of the template has exactly one extra entry). -/
def setExtraOptions (genres : List String) : List ExtraDesc → List ExtraDesc
  | [] => []
  | e :: rest => { e with options := genres } :: rest

/-- The static instructions page (its HTML text plays no role in any
verified property, so the literal body is abbreviated). -/
def PAGE : String := "static instructions page"

/-- `/^tt\d+$/.test(s)`. -/
def isTtId (s : String) : Bool :=
  match s.data with
  | 't' :: 't' :: ds => !ds.isEmpty && ds.all (fun c => c.isDigit)
  | _ => false

/-- A response as produced by `send`: status code, content type, body. -/
inductive Body where
  | htmlPage
  | textBody (s : String)
  | jsonErr (msg : String)
  | manifestBody (m : Manifest)
  | metasBody (l : List MetaItem)
  | metaStub (id : String) (type : Option String) (name poster : String)
  | emptyBody
deriving DecidableEq, Repr

structure Response where
  status : Nat
  contentType : String
  body : Body
deriving DecidableEq, Repr

/-- `pathname.split("/").filter(Boolean)`. -/
def pathSegs (pathname : String) : List String :=
  (splitChar '/' pathname).filter (fun s => s ≠ "")

/-- `segs[0] && !segs[0].includes(".") ? segs[0] : ""`. -/
def pathHash (pathname : String) : String :=
  match (pathSegs pathname).head? with
  | some s => if containsChar '.' s then "" else s
  | none => ""

/-- `hash ? "/" + segs.slice(1).join("/") : pathname`. -/
def pathTail (pathname : String) : String :=
  if pathHash pathname ≠ "" then "/" ++ joinSep "/" ((pathSegs pathname).drop 1) else pathname

/-- Handler outcome: the response (or an uncaught runtime exception) and
how many outbound GraphQL calls were made. -/
structure HandlerOut where
  result : Except JsError Response
  upstreamCalls : Nat
deriving Repr

/-- The request handler of the extras-aware revision, parameterized by the
transport behaviour of the one outbound call (cookie bytes to axios
outcome). -/
def handler (method pathname : String)
    (transport : List Nat → Except TransportErr GqlPayload) : HandlerOut :=
  if method = "OPTIONS" then ⟨.ok ⟨204, "", .emptyBody⟩, 0⟩
  else
    let hash := pathHash pathname
    let tl := pathTail pathname
    if tl = "/" ∨ tl = "/index.html" then ⟨.ok ⟨200, "text/html", .htmlPage⟩, 0⟩
    else if tl = "/manifest.json" then
      let cookie := if hash ≠ "" then b64url.decode hash.data else []
      let fetched := if cookie ≠ [] then some (fetchImdbData (transport cookie)) else none
      let genres := match fetched with
        | some (.ok d) => extractGenresFromData d
        | _ => []
      let m : Manifest := { BASE_MANIFEST with
        catalogs := BASE_MANIFEST.catalogs.map
          (fun c => { c with extra := setExtraOptions genres c.extra }),
        id := if cookie ≠ [] then BASE_MANIFEST.id ++ "." ++ hash else BASE_MANIFEST.id }
      ⟨.ok ⟨200, "application/json", .manifestBody m⟩, if cookie ≠ [] then 1 else 0⟩
    else if strStarts "/catalog/" tl then
      let parts := splitChar '/' tl
      match parts[3]? with
      | none => ⟨.error .typeError, 0⟩
      | some cid =>
        if ¬ strStarts "imdb-top-picks" cid then
          ⟨.ok ⟨404, "application/json", .jsonErr "Unknown catalog"⟩, 0⟩
        else
          let extras := parseExtrasFromPath tl
          let cookie := if hash ≠ "" then b64url.decode hash.data else []
          if cookie = [] then
            ⟨.ok ⟨400, "application/json",
              .jsonErr "Missing IMDb cookie – generate URL via root page."⟩, 0⟩
          else
            match fetchImdbData (transport cookie) with
            | .error e => ⟨.ok ⟨503, "application/json", .jsonErr e⟩, 1⟩
            | .ok d =>
              match d.data with
              | none => ⟨.error .typeError, 1⟩
              | some dd =>
                match dd.titleRecommendations with
                | none => ⟨.error .typeError, 1⟩
                | some tr =>
                  match mapBuildMeta (tr.edges.getD []) with
                  | .error err => ⟨.error err, 1⟩
                  | .ok metas0 =>
                    let metas1 := (metas0.filterMap (fun x => x)).filter
                      (fun m => match parts[2]? with | some t => m.type == t | none => false)
                    let metas2 := match jsObjGet extras "genre" with
                      | some g =>
                        if g ≠ "" then
                          metas1.filter (fun m => m.genres.any
                            (fun s => jsToLower s == jsToLower g))
                        else metas1
                      | none => metas1
                    ⟨.ok ⟨200, "application/json", .metasBody metas2⟩, 1⟩
    else if strStarts "/meta/" tl then
      let parts := splitChar '/' tl
      let imdbId := stripJsonSuffix ((parts[3]?).getD "")
      if ¬ isTtId imdbId then ⟨.ok ⟨400, "application/json", .jsonErr "Bad IMDb id"⟩, 0⟩
      else
        ⟨.ok ⟨200, "application/json",
          .metaStub imdbId (parts[2]?) ("IMDb title " ++ imdbId)
            ("https://img.omdbapi.com/?i=" ++ imdbId ++ "&apikey=YOUR_OMDB_API_KEY")⟩, 0⟩
    else ⟨.ok ⟨404, "text/plain", .textBody "Not found"⟩, 0⟩

def errAuthWit : UpstreamErr := ⟨some "authentication required"⟩

def payloadAuthWit : GqlPayload := ⟨none, some [errAuthWit]⟩

def genreWrapOf (s : String) : GenreWrap := ⟨some ⟨some s⟩⟩

def titleGenresWit : Title :=
  { id := some "tt1", titleType := none, titleText := some ⟨some "A"⟩,
    originalTitleText := none, primaryImage := none, releaseYear := none,
    titleGenres := some ⟨some [genreWrapOf "Action", genreWrapOf "Drama",
      genreWrapOf "Action"]⟩,
    ratingsSummary := none }

def payloadGenresWit : GqlPayload :=
  ⟨some ⟨some ⟨some [⟨some ⟨some titleGenresWit⟩⟩]⟩⟩, none⟩

/-! ### Claim C5: per-title genre list of the meta mapper -/

/-- The genre display strings attached to a title, in upstream order
(claim-level notion: every present display text, including an empty
one). -/
def attachedGenreTexts (t : Title) : List String :=
  ((t.titleGenres.bind (fun tg => tg.genres)).getD []).filterMap
    (fun g => g.genre.bind (fun gg => gg.text))

def titleEmptyGenreWit : Title :=
  { id := some "tt1", titleType := none, titleText := some ⟨some "X"⟩,
    originalTitleText := none, primaryImage := none, releaseYear := none,
    titleGenres := some ⟨some [⟨some ⟨some ""⟩⟩]⟩, ratingsSummary := none }

def edgeEmptyGenreWit : Edge := ⟨some ⟨some titleEmptyGenreWit⟩⟩

def titleTwoGenresWit : Title :=
  { id := some "tt2", titleType := none, titleText := some ⟨some "Y"⟩,
    originalTitleText := none, primaryImage := none, releaseYear := none,
    titleGenres := some ⟨some [genreWrapOf "Action", genreWrapOf "Drama"]⟩,
    ratingsSummary := none }

def edgeTwoGenresWit : Edge := ⟨some ⟨some titleTwoGenresWit⟩⟩

def titleActionWit : Title :=
  { id := some "tt10", titleType := none, titleText := some ⟨some "ActionMovie"⟩,
    originalTitleText := none, primaryImage := none, releaseYear := none,
    titleGenres := some ⟨some [genreWrapOf "Action"]⟩, ratingsSummary := none }

def titleDramaWit : Title :=
  { id := some "tt11", titleType := none, titleText := some ⟨some "DramaMovie"⟩,
    originalTitleText := none, primaryImage := none, releaseYear := none,
    titleGenres := some ⟨some [genreWrapOf "Drama"]⟩, ratingsSummary := none }

def trWitC6 : TitleRecs := ⟨some [⟨some ⟨some titleActionWit⟩⟩, ⟨some ⟨some titleDramaWit⟩⟩]⟩

def ddWitC6 : GqlData := ⟨some trWitC6⟩

def payloadWitC6 : GqlPayload := ⟨some ddWitC6, none⟩

def metaActionWit : MetaItem :=
  { id := "tt10", type := "movie", name := "ActionMovie", poster := "", year := none,
    genres := ["Action"], posterShape := "poster", imdbRating := none }

def metaDramaWit : MetaItem :=
  { id := "tt11", type := "movie", name := "DramaMovie", poster := "", year := none,
    genres := ["Drama"], posterShape := "poster", imdbRating := none }

/-! ### Codec lemmas -/

theorem padLoopFuel_eq (n : Nat) (b : List Char)
    (h : (4 - b.length % 4) % 4 ≤ n) :
    padLoopFuel n b = b ++ List.replicate ((4 - b.length % 4) % 4) '=' := by
  induction n generalizing b with
  | zero =>
    have h0 : (4 - b.length % 4) % 4 = 0 := Nat.le_zero.mp h
    simp [padLoopFuel, h0]
  | succ n ih =>
    by_cases hb : b.length % 4 = 0
    · simp [padLoopFuel, hb]
    · rw [padLoopFuel, if_neg hb]
      have hle : (4 - (b ++ ['=']).length % 4) % 4 ≤ n := by
        simp only [List.length_append, List.length_cons, List.length_nil]
        omega
      rw [ih (b ++ ['=']) hle]
      have h4 : (4 - (b ++ ['=']).length % 4) % 4 + 1 = (4 - b.length % 4) % 4 := by
        simp only [List.length_append, List.length_cons, List.length_nil]
        omega
      rw [List.append_assoc, ← h4]
      simp [List.replicate_succ]

theorem padLoop_eq (b : List Char) :
    padLoop b = b ++ List.replicate ((4 - b.length % 4) % 4) '=' :=
  padLoopFuel_eq 4 b (by omega)

theorem b64vals_lt (bs : List Nat) (hb : ∀ x ∈ bs, x < 256) :
    ∀ v ∈ b64vals bs, v < 64 := by
  induction bs using b64vals.induct with
  | case1 a b c rest ih =>
    have ha := hb a (by simp)
    have hbb := hb b (by simp)
    have hc := hb c (by simp)
    intro v hv
    simp only [b64vals, List.mem_cons] at hv
    rcases hv with rfl | rfl | rfl | rfl | hv
    · omega
    · omega
    · omega
    · omega
    · exact ih (fun x hx => hb x (by simp [hx])) v hv
  | case2 a b =>
    have ha := hb a (by simp)
    have hbb := hb b (by simp)
    intro v hv
    simp only [b64vals, List.mem_cons, List.not_mem_nil, or_false] at hv
    rcases hv with rfl | rfl | rfl
    · omega
    · omega
    · omega
  | case3 a =>
    have ha := hb a (by simp)
    intro v hv
    simp only [b64vals, List.mem_cons, List.not_mem_nil, or_false] at hv
    rcases hv with rfl | rfl
    · omega
    · omega
  | case4 => intro v hv; simp [b64vals] at hv

theorem bytesOfVals_b64vals (bs : List Nat) (hb : ∀ x ∈ bs, x < 256) :
    bytesOfVals (b64vals bs) = bs := by
  induction bs using b64vals.induct with
  | case1 a b c rest ih =>
    have ha := hb a (by simp)
    have hbb := hb b (by simp)
    have hc := hb c (by simp)
    have ih' := ih (fun x hx => hb x (by simp [hx]))
    simp only [b64vals, bytesOfVals, ih', List.cons.injEq, and_true]
    omega
  | case2 a b =>
    have ha := hb a (by simp)
    have hbb := hb b (by simp)
    simp only [b64vals, bytesOfVals, List.cons.injEq, and_true]
    omega
  | case3 a =>
    have ha := hb a (by simp)
    simp only [b64vals, bytesOfVals, List.cons.injEq, and_true]
    omega
  | case4 => rfl

theorem b64val_b64char : ∀ n, n < 64 → b64val (b64char n) = some n := by decide

theorem subDec1_subEnc1_b64char : ∀ n, n < 64 → subDec1 (subEnc1 (b64char n)) = b64char n := by
  decide

theorem subEnc1_b64char_ne_eq : ∀ n, n < 64 → (subEnc1 (b64char n) == '=') = false := by decide

theorem dropWhile_of_all_false {p : Char → Bool} {l : List Char}
    (h : ∀ c ∈ l, p c = false) : l.dropWhile p = l := by
  cases l with
  | nil => rfl
  | cons c rest => rw [List.dropWhile_cons, h c (by simp)]; simp

theorem stripEqEnd_append_replicate (l : List Char) (k : Nat) :
    stripEqEnd (l ++ List.replicate k '=') = stripEqEnd l := by
  unfold stripEqEnd
  rw [List.reverse_append, List.reverse_replicate]
  congr 1
  induction k with
  | zero => simp
  | succ n _ =>
    rw [List.replicate_succ, List.cons_append, List.dropWhile_cons]
    simp

theorem stripEqEnd_of_no_eq (l : List Char) (h : ∀ c ∈ l, (c == '=') = false) :
    stripEqEnd l = l := by
  unfold stripEqEnd
  rw [dropWhile_of_all_false (fun c hc => h c (List.mem_reverse.mp hc)), List.reverse_reverse]

theorem filterMap_b64val_map_b64char (vs : List Nat) (h : ∀ v ∈ vs, v < 64) :
    (vs.map b64char).filterMap b64val = vs := by
  induction vs with
  | nil => rfl
  | cons v rest ih =>
    simp only [List.map_cons, List.filterMap_cons, b64val_b64char v (h v (by simp))]
    rw [ih (fun x hx => h x (by simp [hx]))]

theorem filterMap_b64val_replicate_eq (k : Nat) :
    (List.replicate k '=').filterMap b64val = [] := by
  induction k with
  | zero => rfl
  | succ n ih =>
    have hnone : b64val '=' = none := by decide
    simp only [List.replicate_succ, List.filterMap_cons, hnone, ih]

/-- Core round trip: decoding the encoded byte string recovers it. -/
theorem b64url_decode_encode (bs : List Nat) (hb : ∀ x ∈ bs, x < 256) :
    b64url.decode (b64url.encode bs) = bs := by
  have hv : ∀ v ∈ b64vals bs, v < 64 := b64vals_lt bs hb
  unfold b64url.encode b64url.decode
  rw [List.map_append, List.map_replicate]
  have heq : subEnc1 '=' = '=' := rfl
  rw [heq]
  rw [stripEqEnd_append_replicate]
  rw [stripEqEnd_of_no_eq _ (by
    intro c hc
    rw [List.mem_map] at hc
    obtain ⟨d, hd, rfl⟩ := hc
    rw [List.mem_map] at hd
    obtain ⟨v, hvv, rfl⟩ := hd
    exact subEnc1_b64char_ne_eq v (hv v hvv))]
  rw [List.map_map, List.map_map]
  have hmap : ((b64vals bs).map ((subDec1 ∘ subEnc1) ∘ b64char)) = (b64vals bs).map b64char := by
    apply List.map_congr_left
    intro v hvv
    simp only [Function.comp_apply]
    exact subDec1_subEnc1_b64char v (hv v hvv)
  rw [hmap, padLoop_eq, List.filterMap_append, filterMap_b64val_replicate_eq,
    List.append_nil, filterMap_b64val_map_b64char _ hv, bytesOfVals_b64vals _ hb]

/-! ### Claim C1: credential codec round trip -/

/-- C1: for every byte string representable as an HTTP Cookie header value
(bytes below 256, no embedded NUL), `b64url.decode (b64url.encode x) = x`:
encode base64-encodes with `+` and `/` substituted and trailing padding
stripped, and decode reverses the substitution, restores padding and
base64-decodes back to exactly `x`. -/
theorem C1_codec_roundtrip (bs : List Nat) (hb : ∀ x ∈ bs, x < 256)
    (_hnul : 0 ∉ bs) : b64url.decode (b64url.encode bs) = bs :=
  b64url_decode_encode bs hb

theorem C1_codec_roundtrip_witness :
    (∀ x ∈ [72, 101, 108, 108, 111], x < 256) ∧ (0 ∉ [72, 101, 108, 108, 111]) ∧
    b64url.decode (b64url.encode [72, 101, 108, 108, 111]) = [72, 101, 108, 108, 111] :=
  ⟨by decide, by decide, C1_codec_roundtrip [72, 101, 108, 108, 111] (by decide) (by decide)⟩

/-! ### Claim C9: decode is total, so a malformed credential segment never
throws -/

/-- C9: for every input, the padding-restoration loop of `b64url.decode`
terminates after appending at most three `=` characters, and a manifest
request with an arbitrary (possibly malformed) credential segment always
produces a response rather than an uncaught decoding exception. -/
theorem C9_decode_never_throws :
    (∀ s : List Char, ∃ n, n ≤ 3 ∧
      padLoop (s.map subDec1) = s.map subDec1 ++ List.replicate n '=') ∧
    (∀ method pathname transport, pathTail pathname = "/manifest.json" →
      ∃ r, (handler method pathname transport).result = .ok r) := by
  constructor
  · intro s
    refine ⟨(4 - (s.map subDec1).length % 4) % 4, by omega, padLoop_eq _⟩
  · intro method pathname transport htl
    cases hres : (handler method pathname transport).result with
    | ok r => exact ⟨r, rfl⟩
    | error e =>
      by_cases hm : method = "OPTIONS"
      · simp [handler, hm] at hres
      · simp [handler, hm, htl] at hres

theorem C9_decode_never_throws_witness :
    pathTail "/!x!/manifest.json" = "/manifest.json" ∧
    ∃ r, (handler "GET" "/!x!/manifest.json"
      (fun _ => Except.error ⟨none, none⟩)).result = .ok r :=
  ⟨by decide, C9_decode_never_throws.2 "GET" "/!x!/manifest.json" _ (by decide)⟩

/-! ### Claim C2: upstream error classification -/

theorem generic_ne_login (m : String) :
    ("IMDb GraphQL error: " ++ m) ≠ "Login required or cookie expired." := by
  intro h
  have hd : "IMDb GraphQL error: ".data ++ m.data =
      "Login required or cookie expired.".data := congrArg String.data h
  have h1 : "IMDb GraphQL error: ".data = 'I' :: "MDb GraphQL error: ".data := rfl
  have h2 : "Login required or cookie expired.".data =
      'L' :: "ogin required or cookie expired.".data := rfl
  rw [h1, h2, List.cons_append] at hd
  simp at hd

/-- C2: when the edge list of a successfully transported payload is absent
or empty and the payload carries a non-empty `errors` array, the fetch
fails; the message is the fixed login-required message exactly when the
joined error messages contain "auth" or "login" case-insensitively, and
otherwise it is the generic upstream-error message carrying the joined
messages. -/
theorem C2_upstream_error_classification (p : GqlPayload) (es : List UpstreamErr)
    (hedges : edgesOfPayload p = []) (herr : p.errors = some es) (_hne : es ≠ []) :
    (∃ m, fetchImdbData (.ok p) = .error m) ∧
    (fetchImdbData (.ok p) = .error "Login required or cookie expired." ↔
      (hasSubCI "auth" (joinedErrorMessages es) ||
        hasSubCI "login" (joinedErrorMessages es)) = true) ∧
    ((hasSubCI "auth" (joinedErrorMessages es) ||
        hasSubCI "login" (joinedErrorMessages es)) = false →
      fetchImdbData (.ok p) = .error ("IMDb GraphQL error: " ++ joinedErrorMessages es)) := by
  by_cases hauth : (hasSubCI "auth" (joinedErrorMessages es) ||
      hasSubCI "login" (joinedErrorMessages es)) = true
  · refine ⟨⟨"Login required or cookie expired.", ?_⟩, ?_, ?_⟩
    · simp [fetchImdbData, hedges, herr, hauth]
    · simp [fetchImdbData, hedges, herr, hauth]
    · intro hfalse; rw [hauth] at hfalse; cases hfalse
  · have hauth' : (hasSubCI "auth" (joinedErrorMessages es) ||
        hasSubCI "login" (joinedErrorMessages es)) = false := by
      cases h : (hasSubCI "auth" (joinedErrorMessages es) ||
          hasSubCI "login" (joinedErrorMessages es))
      · rfl
      · exact absurd h hauth
    refine ⟨⟨"IMDb GraphQL error: " ++ joinedErrorMessages es, ?_⟩, ?_, ?_⟩
    · simp [fetchImdbData, hedges, herr, hauth']
    · constructor
      · intro habs
        have : fetchImdbData (.ok p) =
            .error ("IMDb GraphQL error: " ++ joinedErrorMessages es) := by
          simp [fetchImdbData, hedges, herr, hauth']
        rw [this] at habs
        exact absurd (Except.error.inj habs) (generic_ne_login _)
      · intro h; rw [h] at hauth'; cases hauth'
    · intro _; simp [fetchImdbData, hedges, herr, hauth']

theorem C2_upstream_error_classification_witness :
    edgesOfPayload payloadAuthWit = [] ∧ payloadAuthWit.errors = some [errAuthWit] ∧
    [errAuthWit] ≠ [] ∧
    ((∃ m, fetchImdbData (.ok payloadAuthWit) = .error m) ∧
    (fetchImdbData (.ok payloadAuthWit) = .error "Login required or cookie expired." ↔
      (hasSubCI "auth" (joinedErrorMessages [errAuthWit]) ||
        hasSubCI "login" (joinedErrorMessages [errAuthWit])) = true) ∧
    ((hasSubCI "auth" (joinedErrorMessages [errAuthWit]) ||
        hasSubCI "login" (joinedErrorMessages [errAuthWit])) = false →
      fetchImdbData (.ok payloadAuthWit) =
        .error ("IMDb GraphQL error: " ++ joinedErrorMessages [errAuthWit]))) :=
  ⟨by decide, rfl, by decide,
    C2_upstream_error_classification payloadAuthWit [errAuthWit] (by decide) rfl (by decide)⟩

/-! ### Order, de-duplication and sorting lemmas (for the genre options) -/

theorem lexLeL_total (a b : List Char) : lexLeL a b = true ∨ lexLeL b a = true := by
  induction a generalizing b with
  | nil => left; rfl
  | cons x xs ih =>
    cases b with
    | nil => right; rfl
    | cons y ys =>
      rcases lt_trichotomy x y with h | h | h
      · left; simp [lexLeL, h]
      · subst h
        rcases ih ys with h2 | h2
        · left; simp [lexLeL, h2, lt_self_iff_false]
        · right; simp [lexLeL, h2, lt_self_iff_false]
      · right; simp [lexLeL, h]

theorem lexLeL_trans (a b c : List Char) (h1 : lexLeL a b = true)
    (h2 : lexLeL b c = true) : lexLeL a c = true := by
  induction a generalizing b c with
  | nil => rfl
  | cons x xs ih =>
    cases b with
    | nil => simp [lexLeL] at h1
    | cons y ys =>
      cases c with
      | nil => simp [lexLeL] at h2
      | cons z zs =>
        simp only [lexLeL] at h1 h2 ⊢
        by_cases hxy : x < y
        · by_cases hyz : y < z
          · simp [lt_trans hxy hyz]
          · by_cases hyz2 : y = z
            · subst hyz2; simp [hxy]
            · simp [hyz, hyz2] at h2
        · by_cases hxy2 : x = y
          · subst hxy2
            by_cases hyz : x < z
            · simp [hyz]
            · by_cases hyz2 : x = z
              · subst hyz2
                rw [if_neg (lt_irrefl x), if_pos rfl] at h1 h2 ⊢
                exact ih ys zs h1 h2
              · simp [hyz, hyz2] at h2
          · simp [hxy, hxy2] at h1

theorem lexLe_trans {a b c : String} (h1 : lexLe a b = true) (h2 : lexLe b c = true) :
    lexLe a c = true := lexLeL_trans _ _ _ h1 h2

theorem lexLe_total (a b : String) : lexLe a b = true ∨ lexLe b a = true := lexLeL_total _ _

theorem insertLex_mem (s x : String) (l : List String) :
    x ∈ insertLex s l ↔ x = s ∨ x ∈ l := by
  induction l with
  | nil => simp [insertLex]
  | cons y ys ih =>
    rw [insertLex]
    by_cases hle : lexLe s y = true
    · rw [if_pos hle]
      simp [List.mem_cons, or_comm, or_assoc, or_left_comm]
    · rw [if_neg hle]
      simp only [List.mem_cons, ih]
      tauto

theorem insertLex_pairwise (s : String) (l : List String)
    (h : l.Pairwise (fun a b => lexLe a b = true)) :
    (insertLex s l).Pairwise (fun a b => lexLe a b = true) := by
  induction l with
  | nil => simp [insertLex]
  | cons x xs ih =>
    rw [List.pairwise_cons] at h
    obtain ⟨hx, hxs⟩ := h
    by_cases hle : lexLe s x = true
    · rw [insertLex, if_pos hle, List.pairwise_cons]
      constructor
      · intro y hy
        rcases List.mem_cons.mp hy with rfl | hy2
        · exact hle
        · exact lexLe_trans hle (hx y hy2)
      · rw [List.pairwise_cons]
        exact ⟨hx, hxs⟩
    · rw [insertLex, if_neg hle, List.pairwise_cons]
      constructor
      · intro y hy
        rcases (insertLex_mem s y xs).mp hy with rfl | hy2
        · rcases lexLe_total x y with h2 | h2
          · exact h2
          · exact absurd h2 hle
        · exact hx y hy2
      · exact ih hxs

theorem insertLex_nodup (s : String) (l : List String) (hs : s ∉ l) (h : l.Nodup) :
    (insertLex s l).Nodup := by
  induction l with
  | nil => simp [insertLex]
  | cons x xs ih =>
    rw [List.nodup_cons] at h
    obtain ⟨hx, hxs⟩ := h
    by_cases hle : lexLe s x = true
    · rw [insertLex, if_pos hle, List.nodup_cons, List.nodup_cons]
      exact ⟨hs, hx, hxs⟩
    · rw [insertLex, if_neg hle, List.nodup_cons]
      constructor
      · intro habs
        rcases (insertLex_mem s x xs).mp habs with h2 | h2
        · cases h2; exact hs (List.mem_cons_self _ _)
        · exact hx h2
      · exact ih (fun h2 => hs (List.mem_cons_of_mem x h2)) hxs

theorem sortLex_mem (l : List String) (x : String) : x ∈ sortLex l ↔ x ∈ l := by
  induction l with
  | nil => exact Iff.rfl
  | cons y ys ih =>
    rw [sortLex]
    simp [insertLex_mem, ih, List.mem_cons]

theorem sortLex_pairwise (l : List String) :
    (sortLex l).Pairwise (fun a b => lexLe a b = true) := by
  induction l with
  | nil => simp [sortLex]
  | cons y ys ih =>
    rw [sortLex]
    exact insertLex_pairwise y (sortLex ys) ih

theorem sortLex_nodup (l : List String) (h : l.Nodup) : (sortLex l).Nodup := by
  induction l with
  | nil => simp [sortLex]
  | cons y ys ih =>
    rw [List.nodup_cons] at h
    rw [sortLex]
    exact insertLex_nodup y (sortLex ys)
      (fun habs => h.1 ((sortLex_mem ys y).mp habs)) (ih h.2)

theorem mem_foldl_setAdd (l : List String) (acc : List String) (x : String) :
    x ∈ l.foldl setAdd acc ↔ x ∈ acc ∨ x ∈ l := by
  induction l generalizing acc with
  | nil => simp
  | cons y ys ih =>
    rw [List.foldl_cons, ih]
    unfold setAdd
    by_cases hy : y ∈ acc
    · rw [if_pos hy]
      simp only [List.mem_cons]
      constructor
      · rintro (h | h)
        · exact Or.inl h
        · exact Or.inr (Or.inr h)
      · rintro (h | rfl | h)
        · exact Or.inl h
        · exact Or.inl hy
        · exact Or.inr h
    · rw [if_neg hy]
      simp only [List.mem_append, List.mem_cons, List.not_mem_nil, or_false]
      tauto

theorem foldl_setAdd_nodup (l : List String) (acc : List String) (h : acc.Nodup) :
    (l.foldl setAdd acc).Nodup := by
  induction l generalizing acc with
  | nil => exact h
  | cons y ys ih =>
    rw [List.foldl_cons]
    apply ih
    unfold setAdd
    by_cases hy : y ∈ acc
    · rw [if_pos hy]; exact h
    · rw [if_neg hy]
      simp [List.nodup_append, h, hy]

theorem distinctFirst_nodup (l : List String) : (distinctFirst l).Nodup :=
  foldl_setAdd_nodup l [] (by simp)

theorem mem_distinctFirst (l : List String) (x : String) :
    x ∈ distinctFirst l ↔ x ∈ l := by
  unfold distinctFirst
  rw [mem_foldl_setAdd]
  simp

/-- The three properties that pin down the genre option list: sorted,
duplicate-free, and containing exactly the collected genre strings. -/
theorem extractGenres_props (p : GqlPayload) :
    (extractGenresFromData p).Pairwise (fun a b => lexLe a b = true) ∧
    (extractGenresFromData p).Nodup ∧
    ∀ s, s ∈ extractGenresFromData p ↔ s ∈ collectGenreTexts p := by
  refine ⟨sortLex_pairwise _, sortLex_nodup _ (distinctFirst_nodup _), fun s => ?_⟩
  unfold extractGenresFromData
  rw [sortLex_mem, mem_distinctFirst]

/-! ### Extras-map lemmas -/

theorem mem_jsObjSet (o : List (String × String)) (k v : String) (kv : String × String)
    (h : kv ∈ jsObjSet o k v) : kv ∈ o ∨ kv = (k, v) := by
  induction o with
  | nil => simp [jsObjSet] at h; exact Or.inr h
  | cons p rest ih =>
    obtain ⟨k0, v0⟩ := p
    rw [jsObjSet] at h
    by_cases hk : k0 = k
    · rw [if_pos hk] at h
      rcases List.mem_cons.mp h with rfl | h2
      · subst hk; exact Or.inr rfl
      · exact Or.inl (List.mem_cons_of_mem _ h2)
    · rw [if_neg hk] at h
      rcases List.mem_cons.mp h with rfl | h2
      · exact Or.inl (List.mem_cons_self _ _)
      · rcases ih h2 with h3 | h3
        · exact Or.inl (List.mem_cons_of_mem _ h3)
        · exact Or.inr h3

theorem extrasStep_values (acc : List (String × String)) (pair : String)
    (hacc : ∀ kv ∈ acc, kv.2 ≠ "") : ∀ kv ∈ extrasStep acc pair, kv.2 ≠ "" := by
  intro kv hkv
  simp only [extrasStep] at hkv
  split at hkv
  next v heq =>
    split at hkv
    next h2 =>
      rcases mem_jsObjSet _ _ _ _ hkv with h3 | h3
      · exact hacc kv h3
      · rw [h3]; exact h2.2
    next h2 => exact hacc kv hkv
  next => exact hacc kv hkv

theorem foldl_extrasStep_values (l : List String) (acc : List (String × String))
    (hacc : ∀ kv ∈ acc, kv.2 ≠ "") : ∀ kv ∈ l.foldl extrasStep acc, kv.2 ≠ "" := by
  induction l generalizing acc with
  | nil => exact hacc
  | cons y ys ih =>
    rw [List.foldl_cons]
    exact ih _ (extrasStep_values acc y hacc)

theorem parseExtras_value_ne (path k v : String)
    (h : jsObjGet (parseExtrasFromPath path) k = some v) : v ≠ "" := by
  have hall : ∀ kv ∈ parseExtrasFromPath path, kv.2 ≠ "" := by
    rw [parseExtrasFromPath]
    by_cases hc : stripJsonSuffix (((splitChar '/' path)[4]?).getD "") ≠ "" ∧
        containsChar '=' (stripJsonSuffix (((splitChar '/' path)[4]?).getD ""))
    · rw [if_pos hc]
      exact foldl_extrasStep_values _ [] (by simp)
    · rw [if_neg hc]
      simp
  rw [jsObjGet] at h
  rcases hf : (parseExtrasFromPath path).find? (fun kv => kv.1 == k) with _ | kv
  · rw [hf] at h; cases h
  · rw [hf] at h
    have hmem := List.mem_of_find?_eq_some hf
    have := hall kv hmem
    cases h
    exact this

/-! ### Route-dispatch helper lemmas -/

theorem startsWithL_append (p r : List Char) : startsWithL p (p ++ r) = true := by
  induction p with
  | nil => rfl
  | cons x xs ih => simp [startsWithL, ih]

theorem strStarts_append (pre rest : String) : strStarts pre (pre ++ rest) = true := by
  have h : (pre ++ rest).data = pre.data ++ rest.data := rfl
  rw [strStarts, h]
  exact startsWithL_append _ _

theorem append_ne_slash {pre : String} (rest : String) {c : Char} {l1 : List Char}
    (hpre : pre.data = '/' :: c :: l1) : (pre ++ rest) ≠ "/" := by
  intro h
  have h2 : pre.data ++ rest.data = "/".data := congrArg String.data h
  rw [hpre, show "/".data = ['/'] from rfl] at h2
  simp at h2

theorem append_ne_of_head3 {pre t : String} (rest : String) {c1 c2 c3 d1 d2 d3 : Char}
    {l1 l2 : List Char} (hpre : pre.data = c1 :: c2 :: c3 :: l1)
    (ht : t.data = d1 :: d2 :: d3 :: l2) (hne : ¬(c1 = d1 ∧ c2 = d2 ∧ c3 = d3)) :
    (pre ++ rest) ≠ t := by
  intro h
  have h2 : pre.data ++ rest.data = t.data := congrArg String.data h
  rw [hpre, ht] at h2
  simp only [List.cons_append, List.cons.injEq] at h2
  exact hne ⟨h2.1, h2.2.1, h2.2.2.1⟩

/-- A catalog route tail is none of the earlier dispatch targets. -/
theorem catalog_tail_facts (rest : String) :
    ("/catalog/" ++ rest) ≠ "/" ∧ ("/catalog/" ++ rest) ≠ "/index.html" ∧
    ("/catalog/" ++ rest) ≠ "/manifest.json" ∧
    strStarts "/catalog/" ("/catalog/" ++ rest) = true :=
  ⟨append_ne_slash rest rfl,
    append_ne_of_head3 rest rfl rfl (by decide),
    append_ne_of_head3 rest rfl rfl (by decide),
    strStarts_append _ _⟩

/-- A meta route tail is none of the earlier dispatch targets and is not
caught by the catalog branch. -/
theorem meta_tail_facts (rest : String) :
    ("/meta/" ++ rest) ≠ "/" ∧ ("/meta/" ++ rest) ≠ "/index.html" ∧
    ("/meta/" ++ rest) ≠ "/manifest.json" ∧
    strStarts "/catalog/" ("/meta/" ++ rest) = false ∧
    strStarts "/meta/" ("/meta/" ++ rest) = true :=
  ⟨append_ne_slash rest rfl,
    append_ne_of_head3 rest rfl rfl (by decide),
    append_ne_of_head3 rest rfl rfl (by decide),
    rfl,
    strStarts_append _ _⟩

/-! ### Claim C4: manifest id suffix and sorted distinct genre options -/

/-- C4: a manifest request carrying a credential whose upstream fetch
succeeds returns the base manifest id suffixed with "." and the credential
segment, and every catalog genre option list is lexicographically sorted,
duplicate-free, and contains exactly the genre display strings the
extraction collects across all edges. -/
theorem C4_manifest_genres (method pathname : String)
    (transport : List Nat → Except TransportErr GqlPayload) (d : GqlPayload)
    (hm : method ≠ "OPTIONS") (htl : pathTail pathname = "/manifest.json")
    (hhash : pathHash pathname ≠ "")
    (hcookie : b64url.decode (pathHash pathname).data ≠ [])
    (hfetch : fetchImdbData (transport (b64url.decode (pathHash pathname).data)) = .ok d) :
    ∃ m : Manifest,
      handler method pathname transport =
        ⟨.ok ⟨200, "application/json", .manifestBody m⟩, 1⟩ ∧
      m.id = "community.imdb-top-picks" ++ "." ++ pathHash pathname ∧
      m.catalogs.map (fun c => c.extra.length) = [1, 1] ∧
      ∀ c ∈ m.catalogs, ∀ e ∈ c.extra,
        e.options.Pairwise (fun a b => lexLe a b = true) ∧ e.options.Nodup ∧
        ∀ s, s ∈ e.options ↔ s ∈ collectGenreTexts d := by
  refine ⟨{ BASE_MANIFEST with
    catalogs := BASE_MANIFEST.catalogs.map
      (fun c => { c with extra := setExtraOptions (extractGenresFromData d) c.extra }),
    id := BASE_MANIFEST.id ++ "." ++ pathHash pathname }, ?_, rfl, rfl, ?_⟩
  · simp [handler, hm, htl, hhash, hcookie, hfetch]
  · intro c hc e he
    simp only [BASE_MANIFEST, List.map_cons, List.map_nil, setExtraOptions,
      List.mem_cons, List.not_mem_nil, or_false] at hc
    obtain ⟨hp, hn, hmem⟩ := extractGenres_props d
    rcases hc with rfl | rfl <;>
    · simp only [List.mem_singleton] at he
      subst he
      exact ⟨hp, hn, hmem⟩

theorem C4_manifest_genres_witness :
    pathTail "/QQ/manifest.json" = "/manifest.json" ∧
    pathHash "/QQ/manifest.json" ≠ "" ∧
    b64url.decode (pathHash "/QQ/manifest.json").data ≠ [] ∧
    fetchImdbData ((fun _ => .ok payloadGenresWit)
      (b64url.decode (pathHash "/QQ/manifest.json").data)) = .ok payloadGenresWit ∧
    extractGenresFromData payloadGenresWit = ["Action", "Drama"] ∧
    ∃ m : Manifest,
      handler "GET" "/QQ/manifest.json" (fun _ => .ok payloadGenresWit) =
        ⟨.ok ⟨200, "application/json", .manifestBody m⟩, 1⟩ ∧
      m.id = "community.imdb-top-picks" ++ "." ++ pathHash "/QQ/manifest.json" ∧
      m.catalogs.map (fun c => c.extra.length) = [1, 1] ∧
      ∀ c ∈ m.catalogs, ∀ e ∈ c.extra,
        e.options.Pairwise (fun a b => lexLe a b = true) ∧ e.options.Nodup ∧
        ∀ s, s ∈ e.options ↔ s ∈ collectGenreTexts payloadGenresWit :=
  ⟨by decide, by decide, by decide, rfl, by decide,
    C4_manifest_genres "GET" "/QQ/manifest.json" (fun _ => .ok payloadGenresWit)
      payloadGenresWit (by decide) (by decide) (by decide) (by decide) rfl⟩

theorem mapGenreTexts_ok (l : List GenreWrap) (hg : ∀ g ∈ l, g.genre.isSome) :
    ∃ ts, mapGenreTexts l = .ok ts ∧
      ts.filterMap (fun x => x) =
        l.filterMap (fun g => g.genre.bind (fun gg => gg.text)) := by
  induction l with
  | nil => exact ⟨[], rfl, rfl⟩
  | cons g rest ih =>
    obtain ⟨ts, hts, hmap⟩ := ih (fun x hx => hg x (List.mem_cons_of_mem _ hx))
    rcases hgg : g.genre with _ | gg
    · have h := hg g (List.mem_cons_self _ _)
      rw [hgg] at h
      cases h
    · refine ⟨gg.text :: ts, ?_, ?_⟩
      · rw [mapGenreTexts, hgg, hts]
      · simp only [List.filterMap_cons, hgg, Option.some_bind]
        cases ht : gg.text with
        | none => simpa using hmap
        | some s => simpa using hmap

/-- C5 (amended): for an edge carrying a title node with a truthy title
identifier whose genre entries each carry a genre object, `buildMeta`
returns a catalog item whose `genres` field is the ordered,
de-duplication-free list of the non-empty genre display strings attached
to the title, and the empty list when none are attached. -/
theorem C5_meta_genres (edge : Edge) (t : Title)
    (ht : edge.node.bind (fun n => n.title) = some t)
    (hid : t.id.getD "" ≠ "")
    (hg : ∀ g ∈ (t.titleGenres.bind (fun tg => tg.genres)).getD [], g.genre.isSome) :
    ∃ m : MetaItem, buildMeta edge = .ok (some m) ∧
      m.genres = (attachedGenreTexts t).filter (fun s => s ≠ "") ∧
      (attachedGenreTexts t = [] → m.genres = []) := by
  obtain ⟨ts, hts, hmap⟩ := mapGenreTexts_ok _ hg
  refine ⟨{ id := (t.id.getD ""),
            type := if (t.titleType.bind fun tt => tt.id) = some "tvSeries" ∨
                (t.titleType.bind fun tt => tt.id) = some "tvMiniSeries" then "series"
              else "movie",
            name := jsOrStr (t.titleText.bind fun x => x.text)
              (jsOrStr (t.originalTitleText.bind fun x => x.text) "IMDb title"),
            poster := jsOrStr (t.primaryImage.bind fun x => x.url) "",
            year := t.releaseYear.bind fun x => x.year,
            genres := truthyStrings ts,
            posterShape := "poster",
            imdbRating := t.ratingsSummary.bind fun x => x.aggregateRating },
    ?_, ?_, ?_⟩
  · simp only [buildMeta, ht, hts]
    rw [if_neg hid]
  · show truthyStrings ts = (attachedGenreTexts t).filter (fun s => s ≠ "")
    rw [truthyStrings, hmap, attachedGenreTexts]
  · intro hempty
    show truthyStrings ts = []
    rw [truthyStrings, hmap]
    rw [attachedGenreTexts] at hempty
    rw [hempty]
    rfl

/-- C5 counterexample: a title carrying one genre entry whose display text
is the empty string has attached display list `[""]`, yet `buildMeta`
produces `genres = []` — `.filter(Boolean)` drops the empty display
string, so the produced list is not the de-duplication-free list of all
attached display strings. -/
theorem C5_counterexample :
    attachedGenreTexts titleEmptyGenreWit = [""] ∧
    ∃ m : MetaItem, buildMeta edgeEmptyGenreWit = .ok (some m) ∧
      m.genres = [] ∧ m.genres ≠ attachedGenreTexts titleEmptyGenreWit := by
  refine ⟨rfl, _, rfl, rfl, by decide⟩

theorem C5_meta_genres_witness :
    edgeTwoGenresWit.node.bind (fun n => n.title) = some titleTwoGenresWit ∧
    titleTwoGenresWit.id.getD "" ≠ "" ∧
    (∀ g ∈ (titleTwoGenresWit.titleGenres.bind (fun tg => tg.genres)).getD [],
      g.genre.isSome) ∧
    ∃ m : MetaItem, buildMeta edgeTwoGenresWit = .ok (some m) ∧
      m.genres = (attachedGenreTexts titleTwoGenresWit).filter (fun s => s ≠ "") ∧
      (attachedGenreTexts titleTwoGenresWit = [] → m.genres = []) :=
  ⟨rfl, by decide, by decide,
    C5_meta_genres edgeTwoGenresWit titleTwoGenresWit rfl (by decide) (by decide)⟩

/-! ### Claim C8: meta stub endpoint -/

/-- C8: a meta request responds 400 "Bad IMDb id" exactly when the id
(the fourth path segment with a trailing ".json" stripped) does not match
`tt` followed by digits; a matching id yields a 200 synthesized stub
carrying the id and the templated poster URL, and the branch performs no
outbound call. -/
theorem C8_meta_stub (method pathname rest : String)
    (transport : List Nat → Except TransportErr GqlPayload)
    (hm : method ≠ "OPTIONS") (htl : pathTail pathname = "/meta/" ++ rest) :
    ((handler method pathname transport).result =
        .ok ⟨400, "application/json", .jsonErr "Bad IMDb id"⟩ ↔
      isTtId (stripJsonSuffix (((splitChar '/' ("/meta/" ++ rest))[3]?).getD "")) = false) ∧
    (isTtId (stripJsonSuffix (((splitChar '/' ("/meta/" ++ rest))[3]?).getD "")) = true →
      (handler method pathname transport).result = .ok ⟨200, "application/json",
        .metaStub (stripJsonSuffix (((splitChar '/' ("/meta/" ++ rest))[3]?).getD ""))
          ((splitChar '/' ("/meta/" ++ rest))[2]?)
          ("IMDb title " ++ stripJsonSuffix (((splitChar '/' ("/meta/" ++ rest))[3]?).getD ""))
          ("https://img.omdbapi.com/?i=" ++
            stripJsonSuffix (((splitChar '/' ("/meta/" ++ rest))[3]?).getD "") ++
            "&apikey=YOUR_OMDB_API_KEY")⟩) ∧
    (handler method pathname transport).upstreamCalls = 0 := by
  obtain ⟨h1, h2, h3, h4, h5⟩ := meta_tail_facts rest
  refine ⟨?_, ?_, ?_⟩
  · by_cases htt : isTtId (stripJsonSuffix
        (((splitChar '/' ("/meta/" ++ rest))[3]?).getD "")) = true
    · simp [handler, hm, htl, h1, h2, h3, h4, h5, htt]
    · simp [handler, hm, htl, h1, h2, h3, h4, h5, htt]
  · intro htt
    simp [handler, hm, htl, h1, h2, h3, h4, h5, htt]
  · by_cases htt : isTtId (stripJsonSuffix
        (((splitChar '/' ("/meta/" ++ rest))[3]?).getD "")) = true <;>
      simp [handler, hm, htl, h1, h2, h3, h4, h5, htt]

theorem C8_meta_stub_witness :
    pathTail "/QQ/meta/movie/tt123.json" = "/meta/" ++ "movie/tt123.json" ∧
    isTtId (stripJsonSuffix
      (((splitChar '/' ("/meta/" ++ "movie/tt123.json"))[3]?).getD "")) = true ∧
    (((handler "GET" "/QQ/meta/movie/tt123.json"
        (fun _ => .error ⟨none, none⟩)).result =
          .ok ⟨400, "application/json", .jsonErr "Bad IMDb id"⟩ ↔
      isTtId (stripJsonSuffix
        (((splitChar '/' ("/meta/" ++ "movie/tt123.json"))[3]?).getD "")) = false) ∧
    (isTtId (stripJsonSuffix
        (((splitChar '/' ("/meta/" ++ "movie/tt123.json"))[3]?).getD "")) = true →
      (handler "GET" "/QQ/meta/movie/tt123.json"
          (fun _ => .error ⟨none, none⟩)).result = .ok ⟨200, "application/json",
        .metaStub (stripJsonSuffix
            (((splitChar '/' ("/meta/" ++ "movie/tt123.json"))[3]?).getD ""))
          ((splitChar '/' ("/meta/" ++ "movie/tt123.json"))[2]?)
          ("IMDb title " ++ stripJsonSuffix
            (((splitChar '/' ("/meta/" ++ "movie/tt123.json"))[3]?).getD ""))
          ("https://img.omdbapi.com/?i=" ++
            stripJsonSuffix (((splitChar '/' ("/meta/" ++ "movie/tt123.json"))[3]?).getD "") ++
            "&apikey=YOUR_OMDB_API_KEY")⟩) ∧
    (handler "GET" "/QQ/meta/movie/tt123.json"
      (fun _ => .error ⟨none, none⟩)).upstreamCalls = 0) :=
  ⟨by decide, by decide,
    C8_meta_stub "GET" "/QQ/meta/movie/tt123.json" "movie/tt123.json"
      (fun _ => .error ⟨none, none⟩) (by decide) (by decide)⟩

/-! ### Claim C10: catalog tail without a catalog-id segment -/

/-- C10 counterexample: with a credential segment present, a catalog tail
lacking the catalog-id segment makes `id.startsWith` read a property of
`undefined`: the handler raises a TypeError instead of responding. -/
theorem C10_counterexample :
    handler "GET" "/QQ/catalog/movie" (fun _ => .error ⟨none, none⟩) =
      ⟨.error .typeError, 0⟩ := rfl

/-- C10 (amended): a request whose route tail begins with "/catalog/" but
has no fourth `/`-segment makes the extras-aware handler throw a TypeError
while inspecting the missing catalog id (no HTTP response is produced),
without any outbound call. -/
theorem C10_missing_segment_throws (method pathname rest : String)
    (transport : List Nat → Except TransportErr GqlPayload)
    (hm : method ≠ "OPTIONS") (htl : pathTail pathname = "/catalog/" ++ rest)
    (hmiss : (splitChar '/' ("/catalog/" ++ rest))[3]? = none) :
    handler method pathname transport = ⟨.error .typeError, 0⟩ := by
  obtain ⟨h1, h2, h3, h4⟩ := catalog_tail_facts rest
  simp [handler, hm, htl, h1, h2, h3, h4, hmiss]

theorem C10_missing_segment_throws_witness :
    pathTail "/ZZ/catalog/series" = "/catalog/" ++ "series" ∧
    (splitChar '/' ("/catalog/" ++ "series"))[3]? = none ∧
    handler "GET" "/ZZ/catalog/series" (fun _ => .error ⟨none, none⟩) =
      ⟨.error .typeError, 0⟩ :=
  ⟨by decide, by decide,
    C10_missing_segment_throws "GET" "/ZZ/catalog/series" "series"
      (fun _ => .error ⟨none, none⟩) (by decide) (by decide) (by decide)⟩

/-! ### Claim C3: catalog request without a credential -/

/-- C3 counterexample: a catalog path with no credential segment has its
"catalog" segment consumed as the credential, so the route tail no longer
matches the catalog branch: the handler answers 404 "Not found" (not 400),
with no outbound call. -/
theorem C3_counterexample :
    handler "GET" "/catalog/movie/imdb-top-picks.json"
        (fun _ => .error ⟨none, none⟩) =
      ⟨.ok ⟨404, "text/plain", .textBody "Not found"⟩, 0⟩ ∧
    ∀ r : Response, (handler "GET" "/catalog/movie/imdb-top-picks.json"
        (fun _ => .error ⟨none, none⟩)).result = .ok r → r.status ≠ 400 := by
  refine ⟨rfl, ?_⟩
  intro r h
  have h3 : (handler "GET" "/catalog/movie/imdb-top-picks.json"
      (fun _ => .error ⟨none, none⟩)).result =
      .ok ⟨404, "text/plain", .textBody "Not found"⟩ := rfl
  rw [h3] at h
  have h4 := Except.ok.inj h
  rw [← h4]
  decide

/-- C3 (amended): a catalog-shaped path without a credential segment is
mis-parsed (its first segment is taken as the credential) and answered 404
"Not found" with no outbound call; the 400 "Missing IMDb cookie" response
arises for requests that reach the catalog branch with a recognized
catalog id whose credential segment decodes to the empty cookie, likewise
with no outbound call. -/
theorem C3_missing_cookie (method pathname rest cid : String)
    (transport : List Nat → Except TransportErr GqlPayload)
    (hm : method ≠ "OPTIONS") (htl : pathTail pathname = "/catalog/" ++ rest)
    (hcid : (splitChar '/' ("/catalog/" ++ rest))[3]? = some cid)
    (hpre : strStarts "imdb-top-picks" cid = true)
    (hcookie : (if pathHash pathname ≠ "" then
      b64url.decode (pathHash pathname).data else []) = []) :
    handler method pathname transport =
      ⟨.ok ⟨400, "application/json",
        .jsonErr "Missing IMDb cookie – generate URL via root page."⟩, 0⟩ ∧
    (∀ method2 : String, ∀ transport2 : List Nat → Except TransportErr GqlPayload,
      method2 ≠ "OPTIONS" →
      handler method2 "/catalog/movie/imdb-top-picks.json" transport2 =
        ⟨.ok ⟨404, "text/plain", .textBody "Not found"⟩, 0⟩) := by
  obtain ⟨h1, h2, h3, h4⟩ := catalog_tail_facts rest
  constructor
  · simp [handler, hm, htl, h1, h2, h3, h4, hcid, hpre, hcookie]
  · intro method2 transport2 hm2
    unfold handler
    rw [if_neg hm2]
    rfl

theorem C3_missing_cookie_witness :
    pathTail "/A/catalog/movie/imdb-top-picks.json" =
      "/catalog/" ++ "movie/imdb-top-picks.json" ∧
    (splitChar '/' ("/catalog/" ++ "movie/imdb-top-picks.json"))[3]? =
      some "imdb-top-picks.json" ∧
    strStarts "imdb-top-picks" "imdb-top-picks.json" = true ∧
    (if pathHash "/A/catalog/movie/imdb-top-picks.json" ≠ "" then
      b64url.decode (pathHash "/A/catalog/movie/imdb-top-picks.json").data else []) = [] ∧
    handler "GET" "/A/catalog/movie/imdb-top-picks.json"
        (fun _ => .error ⟨none, none⟩) =
      ⟨.ok ⟨400, "application/json",
        .jsonErr "Missing IMDb cookie – generate URL via root page."⟩, 0⟩ :=
  ⟨by decide, by decide, by decide, by decide,
    (C3_missing_cookie "GET" "/A/catalog/movie/imdb-top-picks.json"
      "movie/imdb-top-picks.json" "imdb-top-picks.json"
      (fun _ => .error ⟨none, none⟩) (by decide) (by decide) (by decide)
      (by decide) (by decide)).1⟩

/-! ### Claim C7: catalog-id validation -/

/-- C7: for a catalog request whose catalog-id segment exists, the 404
"Unknown catalog" JSON error is returned exactly when the id does not
start with "imdb-top-picks"; any id starting with that prefix passes the
validation (whatever happens next is never that 404). -/
theorem C7_unknown_catalog (method pathname rest cid : String)
    (transport : List Nat → Except TransportErr GqlPayload)
    (hm : method ≠ "OPTIONS") (htl : pathTail pathname = "/catalog/" ++ rest)
    (hcid : (splitChar '/' ("/catalog/" ++ rest))[3]? = some cid) :
    (handler method pathname transport).result =
        .ok ⟨404, "application/json", .jsonErr "Unknown catalog"⟩ ↔
      strStarts "imdb-top-picks" cid = false := by
  obtain ⟨h1, h2, h3, h4⟩ := catalog_tail_facts rest
  by_cases hpre : strStarts "imdb-top-picks" cid = true
  · constructor
    · intro habs
      exfalso
      by_cases hh : pathHash pathname = ""
      · simp [handler, hm, htl, h1, h2, h3, h4, hcid, hpre, hh] at habs
      · by_cases hdec : b64url.decode (pathHash pathname).data = []
        · simp [handler, hm, htl, h1, h2, h3, h4, hcid, hpre, hh, hdec] at habs
        · rcases hfetch : fetchImdbData (transport
              (b64url.decode (pathHash pathname).data)) with e | d
          · simp [handler, hm, htl, h1, h2, h3, h4, hcid, hpre, hh, hdec,
              hfetch] at habs
          · rcases hd : d.data with _ | dd
            · simp [handler, hm, htl, h1, h2, h3, h4, hcid, hpre, hh, hdec,
                hfetch, hd] at habs
            · rcases htr : dd.titleRecommendations with _ | tr
              · simp [handler, hm, htl, h1, h2, h3, h4, hcid, hpre, hh, hdec,
                  hfetch, hd, htr] at habs
              · rcases hmb : mapBuildMeta (tr.edges.getD []) with err | metas0
                · simp [handler, hm, htl, h1, h2, h3, h4, hcid, hpre, hh, hdec,
                    hfetch, hd, htr, hmb] at habs
                · simp [handler, hm, htl, h1, h2, h3, h4, hcid, hpre, hh, hdec,
                    hfetch, hd, htr, hmb] at habs
    · intro hfalse
      rw [hpre] at hfalse
      cases hfalse
  · have hpre' : strStarts "imdb-top-picks" cid = false := by
      cases h : strStarts "imdb-top-picks" cid
      · rfl
      · exact absurd h hpre
    simp [handler, hm, htl, h1, h2, h3, h4, hcid, hpre, hpre']

theorem C7_unknown_catalog_witness :
    pathTail "/QQ/catalog/movie/other-catalog.json" =
      "/catalog/" ++ "movie/other-catalog.json" ∧
    (splitChar '/' ("/catalog/" ++ "movie/other-catalog.json"))[3]? =
      some "other-catalog.json" ∧
    ((handler "GET" "/QQ/catalog/movie/other-catalog.json"
        (fun _ => .error ⟨none, none⟩)).result =
      .ok ⟨404, "application/json", .jsonErr "Unknown catalog"⟩ ↔
      strStarts "imdb-top-picks" "other-catalog.json" = false) :=
  ⟨by decide, by decide,
    C7_unknown_catalog "GET" "/QQ/catalog/movie/other-catalog.json"
      "movie/other-catalog.json" "other-catalog.json"
      (fun _ => .error ⟨none, none⟩) (by decide) (by decide) (by decide)⟩

/-! ### Claim C6: case-insensitive genre filtering -/

/-- C6: when the extras segment encodes `genre` with value `g`, the
returned metas list contains exactly those type-filtered items with at
least one genre string equal to `g` under case-insensitive comparison. -/
theorem C6_genre_filter (method pathname rest cid g : String)
    (transport : List Nat → Except TransportErr GqlPayload)
    (p : GqlPayload) (dd : GqlData) (tr : TitleRecs)
    (metas0 : List (Option MetaItem))
    (hm : method ≠ "OPTIONS") (htl : pathTail pathname = "/catalog/" ++ rest)
    (hcid : (splitChar '/' ("/catalog/" ++ rest))[3]? = some cid)
    (hpre : strStarts "imdb-top-picks" cid = true)
    (hh : pathHash pathname ≠ "")
    (hdec : b64url.decode (pathHash pathname).data ≠ [])
    (hfetch : fetchImdbData (transport (b64url.decode (pathHash pathname).data)) = .ok p)
    (hdata : p.data = some dd) (htr : dd.titleRecommendations = some tr)
    (hbuild : mapBuildMeta (tr.edges.getD []) = .ok metas0)
    (hgenre : jsObjGet (parseExtrasFromPath ("/catalog/" ++ rest)) "genre" = some g) :
    ∃ l, (handler method pathname transport).result =
        .ok ⟨200, "application/json", .metasBody l⟩ ∧
      ∀ m, m ∈ l ↔
        (m ∈ (metas0.filterMap (fun x => x)).filter
            (fun m => match (splitChar '/' ("/catalog/" ++ rest))[2]? with
              | some t => m.type == t
              | none => false) ∧
          ∃ s ∈ m.genres, jsToLower s = jsToLower g) := by
  obtain ⟨h1, h2, h3, h4⟩ := catalog_tail_facts rest
  have hgne : g ≠ "" := parseExtras_value_ne ("/catalog/" ++ rest) "genre" g hgenre
  refine ⟨((metas0.filterMap (fun x => x)).filter
      (fun m => match (splitChar '/' ("/catalog/" ++ rest))[2]? with
        | some t => m.type == t
        | none => false)).filter
      (fun m => m.genres.any (fun s => jsToLower s == jsToLower g)), ?_, ?_⟩
  · simp [handler, hm, htl, h1, h2, h3, h4, hcid, hpre, hh, hdec, hfetch, hdata,
      htr, hbuild, hgenre, hgne]
  · intro m
    rw [List.mem_filter]
    simp [List.any_eq_true]

theorem C6_genre_filter_witness :
    pathTail "/QQ/catalog/movie/imdb-top-picks/genre=action.json" =
      "/catalog/" ++ "movie/imdb-top-picks/genre=action.json" ∧
    (splitChar '/' ("/catalog/" ++ "movie/imdb-top-picks/genre=action.json"))[3]? =
      some "imdb-top-picks" ∧
    strStarts "imdb-top-picks" "imdb-top-picks" = true ∧
    pathHash "/QQ/catalog/movie/imdb-top-picks/genre=action.json" ≠ "" ∧
    b64url.decode (pathHash "/QQ/catalog/movie/imdb-top-picks/genre=action.json").data ≠ [] ∧
    fetchImdbData ((fun _ => .ok payloadWitC6) (b64url.decode
      (pathHash "/QQ/catalog/movie/imdb-top-picks/genre=action.json").data)) =
      .ok payloadWitC6 ∧
    payloadWitC6.data = some ddWitC6 ∧
    ddWitC6.titleRecommendations = some trWitC6 ∧
    mapBuildMeta (trWitC6.edges.getD []) = .ok [some metaActionWit, some metaDramaWit] ∧
    jsObjGet (parseExtrasFromPath
      ("/catalog/" ++ "movie/imdb-top-picks/genre=action.json")) "genre" = some "action" ∧
    (∃ l, (handler "GET" "/QQ/catalog/movie/imdb-top-picks/genre=action.json"
        (fun _ => .ok payloadWitC6)).result =
        .ok ⟨200, "application/json", .metasBody l⟩ ∧
      ∀ m, m ∈ l ↔
        (m ∈ (([some metaActionWit, some metaDramaWit].filterMap (fun x => x)).filter
            (fun m => match (splitChar '/'
                ("/catalog/" ++ "movie/imdb-top-picks/genre=action.json"))[2]? with
              | some t => m.type == t
              | none => false) : List MetaItem) ∧
          ∃ s ∈ m.genres, jsToLower s = jsToLower "action")) ∧
    (handler "GET" "/QQ/catalog/movie/imdb-top-picks/genre=action.json"
        (fun _ => .ok payloadWitC6)).result =
      .ok ⟨200, "application/json", .metasBody [metaActionWit]⟩ :=
  ⟨by decide, by decide, by decide, by decide, by decide, rfl, rfl, rfl, rfl, by decide,
    C6_genre_filter "GET" "/QQ/catalog/movie/imdb-top-picks/genre=action.json"
      "movie/imdb-top-picks/genre=action.json" "imdb-top-picks" "action"
      (fun _ => .ok payloadWitC6) payloadWitC6 ddWitC6 trWitC6
      [some metaActionWit, some metaDramaWit]
      (by decide) (by decide) (by decide) (by decide) (by decide) (by decide)
      rfl rfl rfl rfl (by decide),
    rfl⟩
